import Mathlib

/-!
Verification of the Crust Chainlink external adapter.

The embedding below follows the two source files.

From src/utils.js, function sendTx: a transaction is signed and sent with
a callback that receives notifications of the form
`(\x7bevents = [], status\x7d)`. The callback settles a JS promise:
a pool-failure status (isInvalid, isDropped, isUsurped, isRetracted)
rejects with the fixed message "Invalid transaction"; an isInBlock status
iterates events.forEach and, per event, resolves false when
section === "system" and method === "ExtrinsicFailed", or resolves true
when method === "ExtrinsicSuccess". A JS promise settles at most once,
so later resolve and reject calls are no-ops; this is modelled by the
`settle` function over an `Option TxResult` promise state. The promise
returned by signAndSend has a .catch that rejects with the underlying
submission error; the unsubscribe handle signAndSend yields is never
captured by the source, modelled by the `unsubCalled` field of
`SendTxRun`.

From src/index.js, function createRequest: after the pin request and the
size lookup succeed, the pipeline builds
`crustChain.tx.market.placeStorageOrder(cid, cumulativeSize, 0)`, awaits
sendTx, and then, whatever boolean sendTx resolved with, sets
`response.data.result = cid` and invokes the success callback; a promise
rejection reaches the .catch handler, which invokes the error callback
with code 500.
-/

/-- Lifecycle status tags of a tracked extrinsic, as exposed by the
chain API through the status.isX getters the source reads. -/
inductive StatusTag where
  | Future
  | Ready
  | Broadcast
  | InBlock
  | Retracted
  | FinalityTimeout
  | Finalized
  | Usurped
  | Dropped
  | Invalid
  deriving DecidableEq

/-- An on-chain event record carrying a module (called section in the
source) and a method name. The source destructures it as
`(\x7bevent: \x7bmethod, section\x7d\x7d)`; the field is named
sectionName here because section is a reserved word in Lean. -/
structure EventRecord where
  sectionName : String
  method : String
  deriving DecidableEq

/-- One notification delivered to the signAndSend callback: a status tag
and the bundled event list (events = [] when absent). -/
structure ChainNotification where
  status : StatusTag
  events : List EventRecord
  deriving DecidableEq

/-- The settled value of the promise returned by sendTx: resolved with a
boolean, or rejected with an error message. -/
inductive TxResult where
  | resolved (ok : Bool)
  | rejected (msg : String)
  deriving DecidableEq

/-- JS promise semantics: a settle call on an already settled promise is
a no-op; on a pending promise it records the value. -/
def settle (st : Option TxResult) (r : TxResult) : Option TxResult :=
  match st with
  | some r0 => some r0
  | none => some r

/-- The disjunction of the four pool-failure getters the source tests:
status.isInvalid, status.isDropped, status.isUsurped,
status.isRetracted. -/
def isPoolFailure : StatusTag → Bool
  | StatusTag.Invalid => true
  | StatusTag.Dropped => true
  | StatusTag.Usurped => true
  | StatusTag.Retracted => true
  | _ => false

/-- The status.isInBlock getter the source tests. -/
def isInBlock : StatusTag → Bool
  | StatusTag.InBlock => true
  | _ => false

/-- The first branch condition of the event loop in the source:
`section === "system" and method === "ExtrinsicFailed"`. -/
def matchesFailedEvent (e : EventRecord) : Bool :=
  e.sectionName == "system" && e.method == "ExtrinsicFailed"

/-- The second branch condition of the event loop in the source:
`method === "ExtrinsicSuccess"`, with no constraint on the module. -/
def matchesSuccessEvent (e : EventRecord) : Bool :=
  e.method == "ExtrinsicSuccess"

/-- One iteration of the events.forEach body in sendTx, acting on the
promise state: the failure branch settles resolved false, the success
branch settles resolved true, any other event leaves the state alone. -/
def processEvent (st : Option TxResult) (e : EventRecord) : Option TxResult :=
  if matchesFailedEvent e then
    settle st (TxResult.resolved false)
  else if matchesSuccessEvent e then
    settle st (TxResult.resolved true)
  else
    st

/-- One invocation of the signAndSend callback in sendTx: the
pool-failure test rejects with the fixed message "Invalid transaction",
then the isInBlock test runs the full events.forEach loop; all through
the settle-once promise state. -/
def processNotification (st : Option TxResult) (n : ChainNotification) :
    Option TxResult :=
  let st1 :=
    if isPoolFailure n.status then
      settle st (TxResult.rejected "Invalid transaction")
    else
      st
  if isInBlock n.status then
    n.events.foldl processEvent st1
  else
    st1

/-- The observation of a whole notification stream by sendTx: the
callback fires once per notification, in order, starting from a pending
promise. The result none means the promise is still pending after the
stream. -/
def observe (notifs : List ChainNotification) : Option TxResult :=
  notifs.foldl processNotification none

/-- The visible effects of one sendTx call: the promise state, whether
the notification subscription was established, and whether the
unsubscribe handle returned by signAndSend was ever called. -/
structure SendTxRun where
  result : Option TxResult
  subscribed : Bool
  unsubCalled : Bool
  deriving DecidableEq

/-- A sendTx call. The submission either fails with an error (the
signAndSend promise rejects, caught by the .catch that rejects the outer
promise with the cause; no subscription exists) or succeeds and delivers
the notification stream to the callback. The source never stores the
unsubscribe handle signAndSend resolves with, so unsubCalled is false on
every path. -/
def sendTxRun (submission : Except String (List ChainNotification)) :
    SendTxRun :=
  match submission with
  | Except.error e => ⟨some (TxResult.rejected e), false, false⟩
  | Except.ok notifs => ⟨observe notifs, true, false⟩

/-- The promise component of a sendTx call. -/
def sendTx (submission : Except String (List ChainNotification)) :
    Option TxResult :=
  (sendTxRun submission).result

/-- The unsigned place-storage-order transaction
`crustChain.tx.market.placeStorageOrder(cid, size, replicas)`. -/
structure StorageOrderTx where
  cid : String
  sizeBytes : Nat
  replicas : Nat
  deriving DecidableEq

/-- Constructor mirroring the placeStorageOrder call of the chain API. -/
def placeStorageOrder (cid : String) (size : Nat) (replicas : Nat) :
    StorageOrderTx :=
  ⟨cid, size, replicas⟩

/-- The size lookup answer of the pinning collaborator:
`ipfsClient.files.stat` returns an object whose cumulativeSize field the
pipeline reads. -/
structure PinStat where
  cumulativeSize : Nat
  deriving DecidableEq

/-- The caller-facing response produced through the callback: either
`callback(response.status, Requester.success(jobRunID, response))` with
`response.data.result = cid`, or
`callback(500, Requester.errored(jobRunID, error))`. -/
inductive AdapterResponse where
  | success (jobRunID : String) (statusCode : Nat) (result : String)
  | errored (jobRunID : String) (statusCode : Nat) (message : String)
  deriving DecidableEq

/-- Awaiting the sendTx promise: a pending promise never returns, a
resolved promise yields its boolean, a rejected promise throws into the
enclosing .catch. -/
def awaitTx : Option TxResult → Option (Except String Bool)
  | none => none
  | some (TxResult.resolved b) => some (Except.ok b)
  | some (TxResult.rejected e) => some (Except.error e)

/-- The tail of createRequest in src/index.js, from the point where the
pin request and the size lookup have succeeded: build the
placeStorageOrder transaction with (cid, cumulativeSize, 0), await
sendTx, and invoke the callback. On a resolved promise the success
callback fires with `response.data.result = cid` and the response status,
no matter which boolean sendTx resolved with; on a rejected promise the
.catch fires the error callback with code 500 and the cause. The output
pairs the transaction that was built with the response handed to the
callback; none means the await never returns. -/
def createRequest (jobRunID : String) (cid : String) (responseStatus : Nat)
    (stat : PinStat) (submission : Except String (List ChainNotification)) :
    Option (StorageOrderTx × AdapterResponse) :=
  match awaitTx (sendTx submission) with
  | none => none
  | some (Except.ok _res) =>
      some (placeStorageOrder cid stat.cumulativeSize 0,
        AdapterResponse.success jobRunID responseStatus cid)
  | some (Except.error e) =>
      some (placeStorageOrder cid stat.cumulativeSize 0,
        AdapterResponse.errored jobRunID 500 e)

/-- Spec-side decision procedure for one InBlock event list, written
from the spec words: a first-match linear scan that stops at the first
event matching either the failure pattern or the success pattern and
decides from that event alone. -/
def firstMatchDecision (events : List EventRecord) : Option Bool :=
  match events.find? (fun e => matchesFailedEvent e || matchesSuccessEvent e) with
  | none => none
  | some e => if matchesFailedEvent e then some false else some true

theorem processEvent_settled (r : TxResult) (e : EventRecord) :
    processEvent (some r) e = some r := by
  unfold processEvent settle
  split
  · rfl
  · split <;> rfl

theorem foldl_processEvent_settled (r : TxResult) :
    ∀ es : List EventRecord, es.foldl processEvent (some r) = some r
  | [] => rfl
  | e :: es => by
      rw [List.foldl_cons, processEvent_settled]
      exact foldl_processEvent_settled r es

theorem processNotification_settled (r : TxResult) (n : ChainNotification) :
    processNotification (some r) n = some r := by
  simp only [processNotification, settle]
  split <;> split <;>
    first
      | exact foldl_processEvent_settled r n.events
      | rfl

theorem foldl_processNotification_settled (r : TxResult) :
    ∀ ns : List ChainNotification,
      ns.foldl processNotification (some r) = some r
  | [] => rfl
  | n :: ns => by
      rw [List.foldl_cons, processNotification_settled]
      exact foldl_processNotification_settled r ns

theorem foldl_processEvent_none (es : List EventRecord) :
    es.foldl processEvent none =
      Option.map TxResult.resolved (firstMatchDecision es) := by
  induction es with
  | nil => rfl
  | cons e es ih =>
      rw [List.foldl_cons]
      by_cases hf : matchesFailedEvent e = true
      · simp [processEvent, hf, settle, foldl_processEvent_settled,
          firstMatchDecision, List.find?_cons]
      · by_cases hs : matchesSuccessEvent e = true
        · simp [processEvent, hf, hs, settle, foldl_processEvent_settled,
            firstMatchDecision, List.find?_cons]
        · have h1 : processEvent none e = none := by
            simp [processEvent, hf, hs]
          rw [h1, ih]
          have h2 : (matchesFailedEvent e || matchesSuccessEvent e) = false := by
            simp [hf, hs]
          simp [firstMatchDecision, List.find?_cons, h2]

theorem processNotification_inBlock (events : List EventRecord) :
    processNotification none ⟨StatusTag.InBlock, events⟩ =
      Option.map TxResult.resolved (firstMatchDecision events) := by
  unfold processNotification
  simp [isPoolFailure, isInBlock, foldl_processEvent_none]

theorem observe_decided (pre post : List ChainNotification)
    (events : List EventRecord) (b : Bool)
    (hpre : observe pre = none)
    (hfirst : firstMatchDecision events = some b) :
    observe (pre ++ ⟨StatusTag.InBlock, events⟩ :: post) =
      some (TxResult.resolved b) := by
  unfold observe at hpre ⊢
  rw [List.foldl_append, hpre, List.foldl_cons, processNotification_inBlock,
    hfirst]
  exact foldl_processNotification_settled (TxResult.resolved b) post

/-- C1: the claim says every terminal on-chain outcome maps to a distinct,
inspectable caller-facing result. The code violates this: a run whose
InBlock events carry the system ExtrinsicFailed event (sendTx resolves
false, the Rejected outcome) produces exactly the same caller-facing
response as a run whose events carry ExtrinsicSuccess (sendTx resolves
true, the Confirmed outcome): both invoke the success callback with
result set to the content identifier. -/
theorem c1_rejected_and_confirmed_share_caller_result :
    sendTx (Except.ok [⟨StatusTag.InBlock, [⟨"system", "ExtrinsicFailed"⟩]⟩]) =
      some (TxResult.resolved false) ∧
    sendTx (Except.ok [⟨StatusTag.InBlock, [⟨"system", "ExtrinsicSuccess"⟩]⟩]) =
      some (TxResult.resolved true) ∧
    createRequest "1" "QmTest1" 200 ⟨1024⟩
        (Except.ok [⟨StatusTag.InBlock, [⟨"system", "ExtrinsicFailed"⟩]⟩]) =
      createRequest "1" "QmTest1" 200 ⟨1024⟩
        (Except.ok [⟨StatusTag.InBlock, [⟨"system", "ExtrinsicSuccess"⟩]⟩]) := by
  refine ⟨by decide, by decide, by decide⟩

/-- C2 counterexample: for the stream consisting of the single Dropped
notification, the promise is rejected with the fixed message
"Invalid transaction", not with the status tag "Dropped" the claim
announces. -/
theorem c2_dropped_reason_counterexample :
    sendTx (Except.ok [⟨StatusTag.Dropped, []⟩]) =
      some (TxResult.rejected "Invalid transaction") ∧
    sendTx (Except.ok [⟨StatusTag.Dropped, []⟩]) ≠
      some (TxResult.rejected "Dropped") := by
  refine ⟨by decide, by decide⟩

/-- C2 amended: when the first notification carries a pool-failure status
tag (Invalid, Dropped, Usurped or Retracted), sendTx rejects immediately
with the fixed reason "Invalid transaction" (the tag itself is not
carried), and no later notification changes the outcome. -/
theorem c2_pool_failure_fixed_reason (n : ChainNotification)
    (rest : List ChainNotification) (h : isPoolFailure n.status = true) :
    sendTx (Except.ok (n :: rest)) =
      some (TxResult.rejected "Invalid transaction") := by
  have h1 : processNotification none n =
      some (TxResult.rejected "Invalid transaction") := by
    simp only [processNotification, h, if_true, settle]
    split
    · exact foldl_processEvent_settled _ n.events
    · rfl
  show observe (n :: rest) = _
  unfold observe
  rw [List.foldl_cons, h1]
  exact foldl_processNotification_settled _ rest

/-- C2 witness: the amended statement evaluated on the stream holding the
single Dropped notification. -/
theorem c2_pool_failure_fixed_reason_witness :
    isPoolFailure StatusTag.Dropped = true ∧
    sendTx (Except.ok [⟨StatusTag.Dropped, []⟩]) =
      some (TxResult.rejected "Invalid transaction") :=
  ⟨rfl, c2_pool_failure_fixed_reason ⟨StatusTag.Dropped, []⟩ [] rfl⟩

/-- C3 counterexample: an InBlock notification whose event list contains
the system ExtrinsicFailed event nevertheless resolves Confirmed
(resolved true) when an ExtrinsicSuccess event precedes it in the list,
refuting the claim that the presence of a failure event always yields
Rejected. -/
theorem c3_failure_event_present_counterexample :
    sendTx (Except.ok [⟨StatusTag.InBlock,
        [⟨"market", "ExtrinsicSuccess"⟩, ⟨"system", "ExtrinsicFailed"⟩]⟩]) =
      some (TxResult.resolved true) ∧
    some (TxResult.resolved true) ≠ some (TxResult.resolved false) := by
  refine ⟨by decide, by decide⟩

/-- C3 amended: when no earlier notification has resolved the outcome and
the first event of the InBlock event list matching either pattern is the
system ExtrinsicFailed event, sendTx resolves Rejected (resolved false)
and never Confirmed, whatever notifications follow. -/
theorem c3_first_match_failure_rejected (pre post : List ChainNotification)
    (events : List EventRecord)
    (hpre : observe pre = none)
    (hfirst : firstMatchDecision events = some false) :
    sendTx (Except.ok (pre ++ ⟨StatusTag.InBlock, events⟩ :: post)) =
      some (TxResult.resolved false) ∧
    sendTx (Except.ok (pre ++ ⟨StatusTag.InBlock, events⟩ :: post)) ≠
      some (TxResult.resolved true) := by
  have hs : sendTx (Except.ok (pre ++ ⟨StatusTag.InBlock, events⟩ :: post)) =
      observe (pre ++ ⟨StatusTag.InBlock, events⟩ :: post) := rfl
  rw [hs, observe_decided pre post events false hpre hfirst]
  exact ⟨rfl, by decide⟩

/-- C3 witness: the amended statement evaluated on the stream holding one
InBlock notification whose only event is the system ExtrinsicFailed
event. -/
theorem c3_first_match_failure_rejected_witness :
    observe [] = none ∧
    firstMatchDecision [⟨"system", "ExtrinsicFailed"⟩] = some false ∧
    (sendTx (Except.ok
        ([] ++ ⟨StatusTag.InBlock, [⟨"system", "ExtrinsicFailed"⟩]⟩ :: [])) =
      some (TxResult.resolved false) ∧
    sendTx (Except.ok
        ([] ++ ⟨StatusTag.InBlock, [⟨"system", "ExtrinsicFailed"⟩]⟩ :: [])) ≠
      some (TxResult.resolved true)) :=
  ⟨rfl, by decide,
    c3_first_match_failure_rejected [] [] [⟨"system", "ExtrinsicFailed"⟩]
      rfl (by decide)⟩

/-- C4 counterexample: an InBlock notification whose event list contains
an ExtrinsicSuccess event nevertheless resolves Rejected (resolved
false) when the system ExtrinsicFailed event precedes it in the list,
refuting the claim that the presence of a success event always yields
Confirmed. -/
theorem c4_success_event_present_counterexample :
    sendTx (Except.ok [⟨StatusTag.InBlock,
        [⟨"system", "ExtrinsicFailed"⟩, ⟨"system", "ExtrinsicSuccess"⟩]⟩]) =
      some (TxResult.resolved false) ∧
    some (TxResult.resolved false) ≠ some (TxResult.resolved true) := by
  refine ⟨by decide, by decide⟩

/-- C4 amended: when no earlier notification has resolved the outcome and
the first event of the InBlock event list matching either pattern is an
ExtrinsicSuccess event, sendTx resolves Confirmed (resolved true) at
that InBlock notification, whatever notifications follow (no later
Finalized notification is required), and the pipeline reports the
content identifier as the result. -/
theorem c4_first_match_success_confirmed (pre post : List ChainNotification)
    (events : List EventRecord) (jobRunID cid : String)
    (responseStatus : Nat) (stat : PinStat)
    (hpre : observe pre = none)
    (hfirst : firstMatchDecision events = some true) :
    sendTx (Except.ok (pre ++ ⟨StatusTag.InBlock, events⟩ :: post)) =
      some (TxResult.resolved true) ∧
    createRequest jobRunID cid responseStatus stat
        (Except.ok (pre ++ ⟨StatusTag.InBlock, events⟩ :: post)) =
      some (placeStorageOrder cid stat.cumulativeSize 0,
        AdapterResponse.success jobRunID responseStatus cid) := by
  have h : sendTx (Except.ok (pre ++ ⟨StatusTag.InBlock, events⟩ :: post)) =
      some (TxResult.resolved true) :=
    observe_decided pre post events true hpre hfirst
  refine ⟨h, ?_⟩
  unfold createRequest
  rw [h]
  rfl

/-- C4 witness: the amended statement evaluated on a stream whose InBlock
notification with a success event is followed by a Finalized
notification, showing the resolution does not wait for finality. -/
theorem c4_first_match_success_confirmed_witness :
    observe [] = none ∧
    firstMatchDecision [⟨"system", "ExtrinsicSuccess"⟩] = some true ∧
    (sendTx (Except.ok
        ([] ++ ⟨StatusTag.InBlock, [⟨"system", "ExtrinsicSuccess"⟩]⟩ ::
          [⟨StatusTag.Finalized, []⟩])) = some (TxResult.resolved true) ∧
    createRequest "1" "QmTest1" 200 ⟨1024⟩
        (Except.ok
          ([] ++ ⟨StatusTag.InBlock, [⟨"system", "ExtrinsicSuccess"⟩]⟩ ::
            [⟨StatusTag.Finalized, []⟩])) =
      some (placeStorageOrder "QmTest1" 1024 0,
        AdapterResponse.success "1" 200 "QmTest1")) :=
  ⟨rfl, by decide,
    c4_first_match_success_confirmed [] [⟨StatusTag.Finalized, []⟩]
      [⟨"system", "ExtrinsicSuccess"⟩] "1" "QmTest1" 200 ⟨1024⟩
      rfl (by decide)⟩

/-- C5: the promise settles at most once, so every notification delivered
after the first resolving one is a no-op on the outcome; in particular
the stream holding an InBlock notification with a success event followed
by a Dropped notification still reports resolved true (Confirmed). -/
theorem c5_resolution_at_most_once :
    (∀ (r : TxResult) (ns : List ChainNotification),
      ns.foldl processNotification (some r) = some r) ∧
    observe [⟨StatusTag.InBlock, [⟨"system", "ExtrinsicSuccess"⟩]⟩,
        ⟨StatusTag.Dropped, []⟩] = some (TxResult.resolved true) :=
  ⟨fun r ns => foldl_processNotification_settled r ns, by decide⟩

/-- C6: the claim says the subscription is explicitly unsubscribed on
every terminal path. The source never stores the unsubscribe handle
signAndSend yields, so on no run of sendTx is the handle called, not
even on a run that reaches the Confirmed terminal outcome. -/
theorem c6_no_unsubscribe_on_any_path :
    (∀ submission : Except String (List ChainNotification),
      (sendTxRun submission).unsubCalled = false) ∧
    (sendTxRun (Except.ok
        [⟨StatusTag.InBlock, [⟨"system", "ExtrinsicSuccess"⟩]⟩])).result =
      some (TxResult.resolved true) ∧
    (sendTxRun (Except.ok
        [⟨StatusTag.InBlock, [⟨"system", "ExtrinsicSuccess"⟩]⟩])).unsubCalled =
      false :=
  ⟨fun s => by cases s <;> rfl, by decide, rfl⟩

/-- C7: when the submission call itself fails, the sendTx promise rejects
with the underlying cause, no notification subscription is established,
and the pipeline surfaces the rejection through the error callback with
code 500. -/
theorem c7_submission_failure_distinct_channel (e jobRunID cid : String)
    (responseStatus : Nat) (stat : PinStat) :
    sendTxRun (Except.error e) = ⟨some (TxResult.rejected e), false, false⟩ ∧
    createRequest jobRunID cid responseStatus stat (Except.error e) =
      some (placeStorageOrder cid stat.cumulativeSize 0,
        AdapterResponse.errored jobRunID 500 e) :=
  ⟨rfl, rfl⟩

/-- C8: whenever the pipeline produces a response, the transaction it
built is the place-storage-order call with exactly the arguments
contentId, the cumulative size reported by the size lookup, and replica
count zero. -/
theorem c8_order_tx_arguments (jobRunID cid : String) (responseStatus : Nat)
    (stat : PinStat) (submission : Except String (List ChainNotification))
    (tx : StorageOrderTx) (resp : AdapterResponse)
    (h : createRequest jobRunID cid responseStatus stat submission =
      some (tx, resp)) :
    tx = placeStorageOrder cid stat.cumulativeSize 0 ∧
    tx.cid = cid ∧ tx.sizeBytes = stat.cumulativeSize ∧ tx.replicas = 0 := by
  unfold createRequest at h
  cases hm : awaitTx (sendTx submission) with
  | none =>
      rw [hm] at h
      cases h
  | some x =>
      cases x with
      | ok b =>
          rw [hm] at h
          injection h with h2
          injection h2 with ha hb
          subst ha
          exact ⟨rfl, rfl, rfl, rfl⟩
      | error e2 =>
          rw [hm] at h
          injection h with h2
          injection h2 with ha hb
          subst ha
          exact ⟨rfl, rfl, rfl, rfl⟩

/-- C8 witness: the statement evaluated on a concrete confirmed run. -/
theorem c8_order_tx_arguments_witness :
    createRequest "1" "QmTest1" 200 ⟨1024⟩
        (Except.ok [⟨StatusTag.InBlock, [⟨"system", "ExtrinsicSuccess"⟩]⟩]) =
      some (placeStorageOrder "QmTest1" 1024 0,
        AdapterResponse.success "1" 200 "QmTest1") ∧
    (placeStorageOrder "QmTest1" 1024 0 =
        placeStorageOrder "QmTest1" 1024 0 ∧
      (placeStorageOrder "QmTest1" 1024 0).cid = "QmTest1" ∧
      (placeStorageOrder "QmTest1" 1024 0).sizeBytes = 1024 ∧
      (placeStorageOrder "QmTest1" 1024 0).replicas = 0) :=
  ⟨by decide,
    c8_order_tx_arguments "1" "QmTest1" 200 ⟨1024⟩
      (Except.ok [⟨StatusTag.InBlock, [⟨"system", "ExtrinsicSuccess"⟩]⟩])
      (placeStorageOrder "QmTest1" 1024 0)
      (AdapterResponse.success "1" 200 "QmTest1") (by decide)⟩

/-- C9: on any InBlock notification starting from a pending promise, the
full events.forEach scan under settle-once promise semantics computes
the same decision as the spec-side first-match linear scan; in
particular when both a failure and a success event are present, the one
earlier in list order determines the outcome. -/
theorem c9_full_scan_eq_first_match :
    (∀ events : List EventRecord,
      processNotification none ⟨StatusTag.InBlock, events⟩ =
        Option.map TxResult.resolved (firstMatchDecision events)) ∧
    processNotification none ⟨StatusTag.InBlock,
        [⟨"system", "ExtrinsicFailed"⟩, ⟨"market", "ExtrinsicSuccess"⟩]⟩ =
      some (TxResult.resolved false) ∧
    processNotification none ⟨StatusTag.InBlock,
        [⟨"market", "ExtrinsicSuccess"⟩, ⟨"system", "ExtrinsicFailed"⟩]⟩ =
      some (TxResult.resolved true) :=
  ⟨processNotification_inBlock, by decide, by decide⟩

/-- C10: the event matching is asymmetric in module scoping: an
ExtrinsicFailed event whose module is not system is ignored on any
promise state, and alone it leaves the promise pending, whereas an
ExtrinsicSuccess event from any module resolves the outcome as
success. -/
theorem c10_asymmetric_module_scoping (s : String) (h : s ≠ "system") :
    (∀ st : Option TxResult, processEvent st ⟨s, "ExtrinsicFailed"⟩ = st) ∧
    observe [⟨StatusTag.InBlock, [⟨s, "ExtrinsicFailed"⟩]⟩] = none ∧
    observe [⟨StatusTag.InBlock, [⟨s, "ExtrinsicSuccess"⟩]⟩] =
      some (TxResult.resolved true) := by
  have hb : (s == "system") = false := by
    simp [h]
  refine ⟨?_, ?_, ?_⟩
  · intro st
    simp [processEvent, matchesFailedEvent, matchesSuccessEvent, hb]
  · simp [observe, processNotification, isPoolFailure, isInBlock,
      processEvent, matchesFailedEvent, matchesSuccessEvent, hb]
  · simp [observe, processNotification, isPoolFailure, isInBlock,
      processEvent, matchesFailedEvent, matchesSuccessEvent, settle]

/-- C10 witness: the statement evaluated at the market module. -/
theorem c10_asymmetric_module_scoping_witness :
    ("market" : String) ≠ "system" ∧
    observe [⟨StatusTag.InBlock, [⟨"market", "ExtrinsicFailed"⟩]⟩] = none ∧
    observe [⟨StatusTag.InBlock, [⟨"market", "ExtrinsicSuccess"⟩]⟩] =
      some (TxResult.resolved true) :=
  ⟨by decide, (c10_asymmetric_module_scoping "market" (by decide)).2.1,
    (c10_asymmetric_module_scoping "market" (by decide)).2.2⟩
